import Mathlib

/-!
Verification development for the coffeescan-rebuild repository.

The repository is TypeScript/Next.js code.  This file gives a shallow
embedding of the pure parts of its API route handlers and library
functions, translated from the source:

* src/lib/vision.ts (fallback regex extraction, confidence scoring,
  extraction cleanup),
* src/app/api/scan/route.ts (POST handler control flow),
* src/app/api/reviews/route.ts, which in the repository snapshot holds
  two revisions of the reviews route: the first built around
  fetchReviews / generateContextualReviews, the second around
  fetchAggregatedData.  Both revisions are embedded, in the namespaces
  ReviewsV1 and ReviewsV2.

Modelling conventions:
* JavaScript numbers are modelled as exact rationals; Math.floor is
  Int.floor and Math.round x is Int.floor (x + 1/2).
* JSON runtime values are modelled by the inductive JVal below, with
  JavaScript truthiness as jtruthy.
* Math.random() draws, the random shuffle, random id generation, the
  natural-log function used for source weights, Date values and JSON.parse
  are taken as explicit parameters of the embedded functions (the code
  performs these effects inline); hypotheses on them state exactly what
  JavaScript guarantees (e.g. draws lie in [0,1), a shuffle permutes).
-/

/-- JSON-like runtime value (undefined, null, booleans, numbers, strings,
arrays, objects), as produced by JSON.parse and consumed by the
TypeScript code through untyped field access. -/
inductive JVal where
  | undefined
  | null
  | bool (b : Bool)
  | num (q : ℚ)
  | str (s : String)
  | arr (l : List JVal)
  | obj (l : List (String × JVal))

/-- JavaScript truthiness of a runtime value. -/
def jtruthy : JVal → Bool
  | .undefined => false
  | .null => false
  | .bool b => b
  | .num q => q != 0
  | .str s => s != ""
  | .arr _ => true
  | .obj _ => true

/-- JavaScript Math.round on exact rationals: Math.round x = ⌊x + 1/2⌋. -/
def jround (q : ℚ) : ℤ := ⌊q + 1/2⌋

/-- Rounding to one decimal place: Math.round (x * 10) / 10. -/
def roundTenth (q : ℚ) : ℚ := (jround (q * 10) : ℚ) / 10

/-- Stand-in for JavaScript number-to-string conversion used in template
strings (the claims never inspect these strings). -/
def jsNumStr (q : ℚ) : String := toString q

/-- Keep the first occurrence of each element, dropping elements already
seen; helper for dedupFirst. -/
def dedupFirstGo {α : Type} [DecidableEq α] (seen : List α) : List α → List α
  | [] => []
  | a :: t => if a ∈ seen then dedupFirstGo seen t else a :: dedupFirstGo (a :: seen) t

/-- Model of the JavaScript idiom [...new Set(arr)]: removes duplicates
keeping first occurrences. -/
def dedupFirst {α : Type} [DecidableEq α] (l : List α) : List α := dedupFirstGo [] l

theorem dedupFirstGo_subset {α : Type} [DecidableEq α] (seen : List α) (l : List α) :
    ∀ x ∈ dedupFirstGo seen l, x ∈ l := by
  induction l generalizing seen with
  | nil => intro x hx; simp [dedupFirstGo] at hx
  | cons a t ih =>
    intro x hx
    by_cases h : a ∈ seen
    · simp [dedupFirstGo, h] at hx
      exact List.mem_cons_of_mem a (ih seen x hx)
    · simp [dedupFirstGo, h] at hx
      rcases hx with hx | hx
      · simp [hx]
      · exact List.mem_cons_of_mem a (ih (a :: seen) x hx)

theorem dedupFirstGo_length {α : Type} [DecidableEq α] (seen : List α) (l : List α) :
    (dedupFirstGo seen l).length ≤ l.length := by
  induction l generalizing seen with
  | nil => simp [dedupFirstGo]
  | cons a t ih =>
    by_cases h : a ∈ seen
    · simp [dedupFirstGo, h]
      exact Nat.le_succ_of_le (ih seen)
    · simp [dedupFirstGo, h]
      exact ih (a :: seen)

theorem dedupFirstGo_not_seen {α : Type} [DecidableEq α] (seen : List α) (l : List α) :
    ∀ x ∈ dedupFirstGo seen l, x ∉ seen := by
  induction l generalizing seen with
  | nil => intro x hx; simp [dedupFirstGo] at hx
  | cons a t ih =>
    intro x hx
    by_cases h : a ∈ seen
    · simp [dedupFirstGo, h] at hx
      exact ih seen x hx
    · simp [dedupFirstGo, h] at hx
      rcases hx with hx | hx
      · simpa [hx] using h
      · intro hs
        exact ih (a :: seen) x hx (List.mem_cons_of_mem a hs)

theorem dedupFirstGo_nodup {α : Type} [DecidableEq α] (seen : List α) (l : List α) :
    (dedupFirstGo seen l).Nodup := by
  induction l generalizing seen with
  | nil => simp [dedupFirstGo]
  | cons a t ih =>
    by_cases h : a ∈ seen
    · simpa [dedupFirstGo, h] using ih seen
    · simp [dedupFirstGo, h]
      refine ⟨?_, ih (a :: seen)⟩
      intro hmem
      exact dedupFirstGo_not_seen (a :: seen) t a hmem (List.mem_cons_self a seen)

theorem dedupFirst_nodup {α : Type} [DecidableEq α] (l : List α) :
    (dedupFirst l).Nodup := dedupFirstGo_nodup [] l

theorem dedupFirst_subset {α : Type} [DecidableEq α] (l : List α) :
    ∀ x ∈ dedupFirst l, x ∈ l := dedupFirstGo_subset [] l

theorem dedupFirst_length {α : Type} [DecidableEq α] (l : List α) :
    (dedupFirst l).length ≤ l.length := dedupFirstGo_length [] l

/-- Rating distribution record with buckets for star ratings 1..5
(the TypeScript object literal with keys 1..5). -/
structure RatingDist where
  s1 : ℤ
  s2 : ℤ
  s3 : ℤ
  s4 : ℤ
  s5 : ℤ
deriving DecidableEq

/-- Sum over the five buckets of a rating distribution
(Object.values(distribution).reduce of the source). -/
def sumDist (d : RatingDist) : ℤ := d.s1 + d.s2 + d.s3 + d.s4 + d.s5

/-- Writing distribution[targetRating] = max(0, distribution[targetRating] + diff):
when the target rating is outside 1..5 the JavaScript assignment creates a
spurious object key and leaves the five star buckets unchanged. -/
def bumpBucket (d : RatingDist) (t : ℤ) (diff : ℤ) : RatingDist :=
  if t = 1 then { d with s1 := max 0 (d.s1 + diff) }
  else if t = 2 then { d with s2 := max 0 (d.s2 + diff) }
  else if t = 3 then { d with s3 := max 0 (d.s3 + diff) }
  else if t = 4 then { d with s4 := max 0 (d.s4 + diff) }
  else if t = 5 then { d with s5 := max 0 (d.s5 + diff) }
  else d

namespace ReviewsV1

/-- The fix-up step of the first revision's generateRatingDistribution:
compute the difference to the total and, when nonzero, add it to the
bucket of the rounded average rating. -/
def applyFixup (base : RatingDist) (totalReviews : ℤ) (averageRating : ℚ) : RatingDist :=
  let difference := totalReviews - sumDist base
  if difference ≠ 0 then bumpBucket base (jround averageRating) difference else base

/-- generateRatingDistribution of the first revision of
src/app/api/reviews/route.ts: per-branch floor shares followed by the
fix-up that adds the remainder to the bucket of the rounded average. -/
def generateRatingDistribution (totalReviews : ℤ) (averageRating : ℚ) : RatingDist :=
  let base : RatingDist :=
    if 4.8 ≤ averageRating then
      ⟨0, ⌊(totalReviews : ℚ) * 0.01⌋, ⌊(totalReviews : ℚ) * 0.04⌋,
        ⌊(totalReviews : ℚ) * 0.15⌋, ⌊(totalReviews : ℚ) * 0.80⌋⟩
    else if 4.5 ≤ averageRating then
      ⟨0, ⌊(totalReviews : ℚ) * 0.02⌋, ⌊(totalReviews : ℚ) * 0.08⌋,
        ⌊(totalReviews : ℚ) * 0.30⌋, ⌊(totalReviews : ℚ) * 0.60⌋⟩
    else if 4.0 ≤ averageRating then
      ⟨⌊(totalReviews : ℚ) * 0.01⌋, ⌊(totalReviews : ℚ) * 0.04⌋, ⌊(totalReviews : ℚ) * 0.15⌋,
        ⌊(totalReviews : ℚ) * 0.40⌋, ⌊(totalReviews : ℚ) * 0.40⌋⟩
    else if 3.5 ≤ averageRating then
      ⟨⌊(totalReviews : ℚ) * 0.05⌋, ⌊(totalReviews : ℚ) * 0.10⌋, ⌊(totalReviews : ℚ) * 0.25⌋,
        ⌊(totalReviews : ℚ) * 0.35⌋, ⌊(totalReviews : ℚ) * 0.25⌋⟩
    else
      ⟨⌊(totalReviews : ℚ) * 0.10⌋, ⌊(totalReviews : ℚ) * 0.25⌋, ⌊(totalReviews : ℚ) * 0.30⌋,
        ⌊(totalReviews : ℚ) * 0.20⌋, ⌊(totalReviews : ℚ) * 0.15⌋⟩
  applyFixup base totalReviews averageRating

end ReviewsV1

namespace ReviewsV2

/-- generateRatingDistribution of the second revision of
src/app/api/reviews/route.ts: early return of all-zero buckets for zero
reviews, then per-branch floor shares with no fix-up step. -/
def generateRatingDistribution (totalReviews : ℤ) (averageRating : ℚ) : RatingDist :=
  if totalReviews = 0 then ⟨0, 0, 0, 0, 0⟩
  else if 4.5 ≤ averageRating then
    ⟨⌊(totalReviews : ℚ) * 0.002⌋, ⌊(totalReviews : ℚ) * 0.008⌋, ⌊(totalReviews : ℚ) * 0.04⌋,
      ⌊(totalReviews : ℚ) * 0.25⌋, ⌊(totalReviews : ℚ) * 0.7⌋⟩
  else if 4.0 ≤ averageRating then
    ⟨⌊(totalReviews : ℚ) * 0.005⌋, ⌊(totalReviews : ℚ) * 0.025⌋, ⌊(totalReviews : ℚ) * 0.12⌋,
      ⌊(totalReviews : ℚ) * 0.35⌋, ⌊(totalReviews : ℚ) * 0.5⌋⟩
  else
    ⟨⌊(totalReviews : ℚ) * 0.02⌋, ⌊(totalReviews : ℚ) * 0.08⌋, ⌊(totalReviews : ℚ) * 0.3⌋,
      ⌊(totalReviews : ℚ) * 0.35⌋, ⌊(totalReviews : ℚ) * 0.25⌋⟩

end ReviewsV2

theorem floorShare_nonneg (t : ℤ) (w : ℚ) (ht : 0 ≤ t) (hw : 0 ≤ w) :
    0 ≤ ⌊(t : ℚ) * w⌋ := by
  apply Int.floor_nonneg.mpr
  exact mul_nonneg (by exact_mod_cast ht) hw

theorem floorShare_sum_le (t : ℤ) (a b c d e : ℚ) (ht : 0 ≤ t)
    (hsum : a + b + c + d + e ≤ 1) :
    ⌊(t : ℚ) * a⌋ + ⌊(t : ℚ) * b⌋ + ⌊(t : ℚ) * c⌋ + ⌊(t : ℚ) * d⌋ + ⌊(t : ℚ) * e⌋ ≤ t := by
  have hq : ((⌊(t : ℚ) * a⌋ + ⌊(t : ℚ) * b⌋ + ⌊(t : ℚ) * c⌋ + ⌊(t : ℚ) * d⌋
      + ⌊(t : ℚ) * e⌋ : ℤ) : ℚ) ≤ (t : ℚ) := by
    push_cast
    have h1 := Int.floor_le ((t : ℚ) * a)
    have h2 := Int.floor_le ((t : ℚ) * b)
    have h3 := Int.floor_le ((t : ℚ) * c)
    have h4 := Int.floor_le ((t : ℚ) * d)
    have h5 := Int.floor_le ((t : ℚ) * e)
    have htq : (0 : ℚ) ≤ (t : ℚ) := by exact_mod_cast ht
    have hmul : (t : ℚ) * a + (t : ℚ) * b + (t : ℚ) * c + (t : ℚ) * d + (t : ℚ) * e
        ≤ (t : ℚ) := by
      have := mul_le_mul_of_nonneg_left hsum htq
      nlinarith
    linarith
  exact_mod_cast hq

theorem bumpBucket_sum (d : RatingDist) (t : ℤ) (diff : ℤ)
    (h1 : 0 ≤ d.s1) (h2 : 0 ≤ d.s2) (h3 : 0 ≤ d.s3) (h4 : 0 ≤ d.s4) (h5 : 0 ≤ d.s5)
    (hdiff : 0 ≤ diff) (htlo : 1 ≤ t) (hthi : t ≤ 5) :
    sumDist (bumpBucket d t diff) = sumDist d + diff := by
  unfold bumpBucket sumDist
  interval_cases t <;> simp <;> omega

theorem applyFixup_sum (base : RatingDist) (t : ℤ) (avg : ℚ)
    (h1 : 0 ≤ base.s1) (h2 : 0 ≤ base.s2) (h3 : 0 ≤ base.s3)
    (h4 : 0 ≤ base.s4) (h5 : 0 ≤ base.s5)
    (hle : sumDist base ≤ t) (hlo : 1 ≤ jround avg) (hhi : jround avg ≤ 5) :
    sumDist (ReviewsV1.applyFixup base t avg) = t := by
  unfold ReviewsV1.applyFixup
  by_cases h : t - sumDist base = 0
  · simp [h]
    omega
  · simp only [h, ne_eq, not_false_eq_true, if_true]
    rw [bumpBucket_sum base (jround avg) (t - sumDist base) h1 h2 h3 h4 h5 (by omega) hlo hhi]
    omega

theorem reviewsV1_dist_sum (t : ℤ) (avg : ℚ) (ht : 0 ≤ t)
    (hlo : 1 ≤ avg) (hhi : avg ≤ 5) :
    sumDist (ReviewsV1.generateRatingDistribution t avg) = t := by
  have hrlo : 1 ≤ jround avg := by
    unfold jround
    rw [Int.le_floor]
    push_cast
    linarith
  have hrhi : jround avg ≤ 5 := by
    unfold jround
    have : ⌊avg + 1/2⌋ < 6 := by
      rw [Int.floor_lt]
      push_cast
      linarith
    omega
  unfold ReviewsV1.generateRatingDistribution
  split_ifs with hb1 hb2 hb3 hb4 <;>
    refine applyFixup_sum _ t avg ?_ ?_ ?_ ?_ ?_ ?_ hrlo hrhi <;>
      first
        | exact le_refl 0
        | exact floorShare_nonneg t _ ht (by norm_num)
        | (unfold sumDist
           first
            | simpa using floorShare_sum_le t 0 0.01 0.04 0.15 0.80 ht (by norm_num)
            | simpa using floorShare_sum_le t 0 0.02 0.08 0.30 0.60 ht (by norm_num)
            | simpa using floorShare_sum_le t 0.01 0.04 0.15 0.40 0.40 ht (by norm_num)
            | simpa using floorShare_sum_le t 0.05 0.10 0.25 0.35 0.25 ht (by norm_num)
            | simpa using floorShare_sum_le t 0.10 0.25 0.30 0.20 0.15 ht (by norm_num))

theorem reviewsV2_dist_sum_le (t : ℤ) (avg : ℚ) (ht : 0 ≤ t) :
    sumDist (ReviewsV2.generateRatingDistribution t avg) ≤ t := by
  unfold ReviewsV2.generateRatingDistribution
  split_ifs with hz hb1 hb2
  · simp [sumDist]
    omega
  · unfold sumDist
    simpa using floorShare_sum_le t 0.002 0.008 0.04 0.25 0.7 ht (by norm_num)
  · unfold sumDist
    simpa using floorShare_sum_le t 0.005 0.025 0.12 0.35 0.5 ht (by norm_num)
  · unfold sumDist
    simpa using floorShare_sum_le t 0.02 0.08 0.3 0.35 0.25 ht (by norm_num)

/-- Membership of a character in the regex class [:\s]. -/
def sepChar (c : Char) : Bool := c = ':' || c.isWhitespace

/-- Membership of a character in the regex class [^\n,]. -/
def capChar (c : Char) : Bool := !(c = '\n' || c = ',')

/-- Case-insensitive literal match: consume the keyword from the front of
the text, returning the rest, or none when the keyword does not match. -/
def ciStrip : List Char → List Char → Option (List Char)
  | [], s => some s
  | _ :: _, [] => none
  | k :: kt, c :: ct => if k.toLower = c.toLower then ciStrip kt ct else none

/-- Does pat occur as a contiguous run in the text, checking each start
position. -/
def containsChars (pat : List Char) : List Char → Bool
  | [] => pat.isEmpty
  | c :: t => pat.isPrefixOf (c :: t) || containsChars pat t

/-- Substring test, modelling JavaScript String.prototype.includes. -/
def containsStr (s pat : String) : Bool := containsChars pat.toList s.toList

/-- Backtracking over a greedy one-or-more character-class match: try the
continuation after consuming k+1, k, ..., 1 characters, largest first
(regex engines try the greedy extent first and give back on failure). -/
def trySuffixCap {α : Type} (f : List Char → Option α) (rest : List Char) : ℕ → Option α
  | 0 => none
  | k + 1 =>
    match f (rest.drop (k + 1)) with
    | some r => some r
    | none => trySuffixCap f rest k

/-- The capture group ([^\n,]+): succeeds when the next character is in
the class, capturing the maximal run. -/
def capHere (s : List Char) : Option (List Char) :=
  match s with
  | [] => none
  | c :: _ => if capChar c then some (s.takeWhile capChar) else none

/-- Case-insensitive literal at the current position, capturing the
matched slice of the original text. -/
def litAt (lit : List Char) (s : List Char) : Option (List Char) :=
  match ciStrip lit s with
  | some _ => some (s.take lit.length)
  | none => none

/-- The capture group (light|medium|dark) of the roast pattern:
alternatives tried left to right. -/
def litHere (s : List Char) : Option (List Char) :=
  match litAt "light".toList s with
  | some r => some r
  | none =>
    match litAt "medium".toList s with
    | some r => some r
    | none => litAt "dark".toList s

/-- Match [:\s]+ followed by the capture continuation f, with greedy
backtracking on the separator run. -/
def sepThen {α : Type} (f : List Char → Option α) (rest : List Char) : Option α :=
  trySuffixCap f rest (rest.takeWhile sepChar).length

/-- Match the pattern (?:kw1|kw2)[:\s]+ followed by capture f at the
current position; the keyword alternatives are tried left to right and
the second is tried when the first alternative fails to complete. -/
def tryPat {α : Type} (f : List Char → Option α) (kw1 kw2 : List Char)
    (s : List Char) : Option α :=
  match (ciStrip kw1 s).bind (sepThen f) with
  | some r => some r
  | none => (ciStrip kw2 s).bind (sepThen f)

/-- Leftmost match of the pattern over the whole text: try each start
position left to right, as String.prototype.match does for a non-global
regex. -/
def scanPat {α : Type} (f : List Char → Option α) (kw1 kw2 : List Char) :
    List Char → Option α
  | [] => none
  | c :: t =>
    match tryPat f kw1 kw2 (c :: t) with
    | some r => some r
    | none => scanPat f kw1 kw2 t

/-- First match of /(?:kw1|kw2)[:\s]+([^\n,]+)/i in the text, returning
capture group 1. -/
def matchCapPattern (kw1 kw2 : String) (text : String) : Option String :=
  (scanPat capHere kw1.toList kw2.toList text.toList).map String.mk

/-- First match of /(?:roast|roasted)[:\s]+(light|medium|dark)[^\n]*/i,
returning capture group 1 (the trailing [^\n]* always matches). -/
def matchRoastPattern (text : String) : Option String :=
  (scanPat litHere "roast".toList "roasted".toList text.toList).map String.mk

/-- The CoffeeExtraction record as it circulates untyped in vision.ts:
its fields are raw JSON values (JSON.parse is not validated). -/
structure CoffeeExtractionJ where
  roaster : JVal := .undefined
  productName : JVal := .undefined
  origin : JVal := .undefined
  region : JVal := .undefined
  farm : JVal := .undefined
  varietal : JVal := .undefined
  processingMethod : JVal := .undefined
  roastLevel : JVal := .undefined
  flavorNotes : JVal := .undefined
  altitude : JVal := .undefined
  harvestYear : JVal := .undefined
  price : JVal := .undefined
  weight : JVal := .undefined
  brewRecommendations : JVal := .undefined

/-- The idiom match?.[1]?.trim() || null of extractFallbackData: a missing
match or an all-whitespace capture yields null. -/
def trimOrNull (m : Option String) : JVal :=
  match m with
  | some c => let v := c.trim; if v = "" then .null else .str v
  | none => .null

/-- extractFallbackData of src/lib/vision.ts: regex-based extraction of
roaster, origin, roast level and brewing information from the raw
response text, with empty flavorNotes. -/
def extractFallbackData (text : String) : CoffeeExtractionJ :=
  { roaster := trimOrNull (matchCapPattern "roaster" "brand" text)
    origin := trimOrNull (matchCapPattern "origin" "from" text)
    roastLevel := trimOrNull (matchRoastPattern text)
    flavorNotes := .arr []
    brewRecommendations :=
      match matchCapPattern "brew" "brewing" text with
      | some c => .arr [.str c.trim]
      | none => .arr [] }

/-- Fuel-indexed global replacement of tok followed by an optional
newline (the regex replace with /tok\n?/g); fuel bounds the number of
steps and is instantiated with the text length, which suffices since
every step consumes at least one character. -/
def replTokF (tok : List Char) : ℕ → List Char → List Char
  | 0, s => s
  | _ + 1, [] => []
  | f + 1, c :: rest =>
    if tok.isPrefixOf (c :: rest) then
      let after := (c :: rest).drop tok.length
      let after2 := match after with
        | '\n' :: t2 => t2
        | _ => after
      replTokF tok f after2
    else c :: replTokF tok f rest

/-- Global replacement of /tok\n?/g with the empty string. -/
def replTok (tok : String) (s : String) : String :=
  String.mk (replTokF tok.toList s.toList.length s.toList)

/-- The markdown-fence cleanup applied to the model response before
JSON.parse: strip all occurrences of three backticks followed by json and
of bare three-backtick fences (each with an optional newline), then trim. -/
def stripFences (s : String) : String :=
  (replTok "```" (replTok "```json" s)).trim

/-- Extraction depth option of vision.ts (the weights differ between
basic and detailed). -/
inductive Depth where
  | basic
  | detailed
deriving DecidableEq

/-- Contribution of a non-array field in calculateExtractionConfidence:
the weight when the value is a string with non-blank trim, or a positive
number; otherwise zero. -/
def contribStrNum (v : JVal) (w : ℚ) : ℚ :=
  match v with
  | .str s => if s.trim ≠ "" then w else 0
  | .num q => if 0 < q then w else 0
  | _ => 0

/-- Contribution of an array field in calculateExtractionConfidence: the
weight when the value is a nonempty array, otherwise zero. -/
def contribArr (v : JVal) (w : ℚ) : ℚ :=
  match v with
  | .arr l => if l.isEmpty then 0 else w
  | _ => 0

/-- calculateExtractionConfidence of src/lib/vision.ts: weighted field
coverage divided by the maximal score, clamped by min(, 1). -/
def calculateExtractionConfidence (data : CoffeeExtractionJ) : Depth → ℚ
  | .basic =>
    let score := contribStrNum data.roaster 0.35 + contribStrNum data.productName 0.25
      + contribStrNum data.origin 0.15 + contribStrNum data.roastLevel 0.1
      + contribArr data.flavorNotes 0.1 + contribArr data.brewRecommendations 0.05
    let maxScore : ℚ := 0.35 + 0.25 + 0.15 + 0.1 + 0.1 + 0.05
    min (score / maxScore) 1
  | .detailed =>
    let score := contribStrNum data.roaster 0.3 + contribStrNum data.productName 0.2
      + contribStrNum data.origin 0.2 + contribStrNum data.roastLevel 0.1
      + contribArr data.flavorNotes 0.1 + contribStrNum data.processingMethod 0.05
      + contribArr data.varietal 0.05
    let maxScore : ℚ := 0.3 + 0.2 + 0.2 + 0.1 + 0.1 + 0.05 + 0.05
    min (score / maxScore) 1

/-- Cleaned extraction record produced by cleanExtractionData (fields are
present only when the cleanup kept them). -/
structure CoffeeExtractionC where
  roaster : Option String := none
  productName : Option String := none
  origin : Option String := none
  region : Option String := none
  farm : Option String := none
  varietal : Option (List String) := none
  processingMethod : Option String := none
  roastLevel : Option String := none
  flavorNotes : Option (List String) := none
  altitude : Option ℤ := none
  harvestYear : Option ℚ := none
  price : Option String := none
  weight : Option String := none
  brewRecommendations : Option (List String) := none
deriving DecidableEq

/-- Replacement of curly double and single quotes by their plain
counterparts (the two quote-normalising replaces of cleanExtractionData). -/
def replQuoteChar (c : Char) : Char :=
  if c = '“' ∨ c = '”' then '"'
  else if c = '‘' ∨ c = '’' then '\x27'
  else c

/-- Collapse runs of whitespace to single spaces (replace of the regex
for one-or-more whitespace by a space); prevWs records whether the
previous character was part of a whitespace run. -/
def collapseWsGo (prevWs : Bool) : List Char → List Char
  | [] => []
  | c :: t =>
    if c.isWhitespace then
      if prevWs then collapseWsGo true t else ' ' :: collapseWsGo true t
    else c :: collapseWsGo false t

/-- The common string cleanup of cleanExtractionData: trim, normalise
quotes, collapse whitespace. -/
def cleanupString (s : String) : String :=
  String.mk (collapseWsGo false ((s.trim).toList.map replQuoteChar))

/-- One alternative of the anchored roaster-tag removal: the tag matched
case-insensitively at the start, followed by at least one whitespace
character, the whole match being removed (greedy whitespace run). -/
def stripTagOne (tag : List Char) (cs : List Char) : Option (List Char) :=
  match ciStrip tag cs with
  | some rest =>
    match rest with
    | c :: _ => if c.isWhitespace then some (rest.dropWhile Char.isWhitespace) else none
    | [] => none
  | none => none

/-- The roaster-specific cleanup: remove an anchored leading tag of
roasted by, by or from (alternatives tried left to right), case
insensitively, together with the following whitespace. -/
def stripLeadTag (s : String) : String :=
  let cs := s.toList
  match stripTagOne "roasted by".toList cs with
  | some r => String.mk r
  | none =>
    match stripTagOne "by".toList cs with
    | some r => String.mk r
    | none =>
      match stripTagOne "from".toList cs with
      | some r => String.mk r
      | none => s

/-- String-field cleanup: kept only for string values with non-blank
trim, then cleaned. -/
def cleanStringField (v : JVal) : Option String :=
  match v with
  | .str s => if s.trim ≠ "" then some (cleanupString s) else none
  | _ => none

/-- Brewing-method standardisation chain of cleanExtractionData
(lower-cased first; unmatched methods stay lower-cased). -/
def standardizeBrew (s : String) : String :=
  let lc := s.toLower
  if containsStr lc "pour over" ∨ containsStr lc "pour-over" then "pour-over"
  else if containsStr lc "french press" then "french-press"
  else if containsStr lc "cold brew" then "cold-brew"
  else if containsStr lc "espresso" then "espresso"
  else if containsStr lc "drip" then "drip"
  else if containsStr lc "aeropress" then "aeropress"
  else if containsStr lc "chemex" then "chemex"
  else if containsStr lc "v60" then "v60"
  else lc

/-- Array-field cleanup of cleanExtractionData: keep non-blank strings,
trim (and standardise brewing methods), keep lengths strictly between 0
and 30, take at most 6, drop duplicates; the field is set only when the
result is nonempty. -/
def cleanArrayField (brew : Bool) (v : JVal) : Option (List String) :=
  match v with
  | .arr items =>
    let l1 := items.filterMap (fun it =>
      match it with
      | .str s => if s.trim ≠ "" then some s else none
      | _ => none)
    let l2 := l1.map (fun s => let c := s.trim; if brew then standardizeBrew c else c)
    let l3 := l2.filter (fun s => 0 < s.length && s.length < 30)
    let l4 := l3.take 6
    if l4.isEmpty then none else some (dedupFirst l4)
  | _ => none

/-- Roast-level standardisation of cleanExtractionData. -/
def standardizeRoast (s : String) : String :=
  let rl := s.toLower
  if containsStr rl "light" then (if containsStr rl "medium" then "medium-light" else "light")
  else if containsStr rl "dark" then (if containsStr rl "medium" then "medium-dark" else "dark")
  else if containsStr rl "medium" then "medium"
  else s

/-- Processing-method standardisation of cleanExtractionData. -/
def standardizeProcessing (s : String) : String :=
  let p := s.toLower
  if containsStr p "washed" ∨ containsStr p "wet" then "washed"
  else if containsStr p "natural" ∨ containsStr p "dry" then "natural"
  else if containsStr p "honey" ∨ containsStr p "pulped natural" then "honey"
  else if containsStr p "wet hulled" ∨ containsStr p "giling basah" then "wet-hulled"
  else if containsStr p "experimental" ∨ containsStr p "anaerobic" then "experimental"
  else s

/-- cleanExtractionData of src/lib/vision.ts.  nowYear stands for
new Date().getFullYear() read in the harvest-year bound. -/
def cleanExtractionData (data : CoffeeExtractionJ) (depth : Depth) (nowYear : ℚ) :
    CoffeeExtractionC :=
  let roastLevel0 := cleanStringField data.roastLevel
  let processingMethod0 :=
    if depth = .detailed then cleanStringField data.processingMethod else none
  { roaster := (cleanStringField data.roaster).map stripLeadTag
    productName := cleanStringField data.productName
    origin := cleanStringField data.origin
    region := if depth = .detailed then cleanStringField data.region else none
    farm := if depth = .detailed then cleanStringField data.farm else none
    price := if depth = .detailed then cleanStringField data.price else none
    weight := if depth = .detailed then cleanStringField data.weight else none
    flavorNotes := cleanArrayField false data.flavorNotes
    brewRecommendations := cleanArrayField true data.brewRecommendations
    varietal := if depth = .detailed then cleanArrayField false data.varietal else none
    altitude :=
      if depth = .detailed then
        match data.altitude with
        | .num a => if 0 < a ∧ a < 10000 then some (jround a) else none
        | _ => none
      else none
    harvestYear :=
      if depth = .detailed then
        match data.harvestYear with
        | .num y => if 1900 < y ∧ y ≤ nowYear then some y else none
        | _ => none
      else none
    roastLevel :=
      match roastLevel0 with
      | some s => if s ≠ "" then some (standardizeRoast s) else some s
      | none => none
    processingMethod :=
      if depth = .detailed then
        match processingMethod0 with
        | some s => if s ≠ "" then some (standardizeProcessing s) else some s
        | none => none
      else processingMethod0 }

/-- Result record of extractWithVision (tokensUsed omitted: it only
copies the API usage counter). -/
structure VisionResult where
  rawResponse : String
  structuredData : CoffeeExtractionC
  confidence : ℚ
deriving DecidableEq

/-- The response post-processing of extractWithVision in
src/lib/vision.ts: strip fences, JSON.parse (modelled by the parse
parameter), fall back to the regex extraction on parse failure, then
score confidence on the substituted record and clean it. -/
def extractWithVision (parse : String → Option CoffeeExtractionJ) (depth : Depth)
    (nowYear : ℚ) (rawResponse : String) : VisionResult :=
  let structuredData :=
    match parse (stripFences rawResponse) with
    | some d => d
    | none => extractFallbackData rawResponse
  { rawResponse
    structuredData := cleanExtractionData structuredData depth nowYear
    confidence := calculateExtractionConfidence structuredData depth }

namespace ScanRoute

/-- A multipart form entry: an uploaded file (content abstracted, it is
only forwarded to the model call) or a plain string field. -/
inductive FormVal where
  | file
  | str (s : String)
deriving DecidableEq

/-- JavaScript truthiness of a form value (a File object is truthy, a
string is truthy when nonempty). -/
def formTruthy : FormVal → Bool
  | .file => true
  | .str s => s != ""

/-- FormData.get: first entry with the given name, or null. -/
def formGet (form : List (String × FormVal)) (name : String) : Option FormVal :=
  (form.find? (fun e => e.1 = name)).map (fun e => e.2)

/-- Strict equality of a JSON value with a given string. -/
def jvalIsStr (v : JVal) (s : String) : Bool :=
  match v with
  | .str t => t = s
  | _ => false

/-- The fixed record substituted by the scan route when JSON parsing of
the model response fails. -/
def unableRecord : CoffeeExtractionJ :=
  { roaster := .str "Unable to extract"
    productName := .str "Unable to extract"
    origin := .str "Unable to extract"
    roastLevel := .str "Unable to extract"
    flavorNotes := .arr [] }

/-- The constant confidence attached to every successful scan result. -/
def scanConfidence : ℚ := 0.9

/-- The response text cleanup of the scan route: default a missing or
empty model response to an empty JSON object text, then strip markdown
fences and trim. -/
def scanClean (aiResponse : Option String) : String :=
  stripFences
    (match aiResponse with
     | none => "\x7b\x7d"
     | some s => if s = "" then "\x7b\x7d" else s)

/-- The result object built by the scan route POST handler. -/
structure ScanResultR where
  id : String
  extraction : CoffeeExtractionJ
  confidence : ℚ
  processingMethod : String
  processingTime : ℤ
  productSearched : Bool
  productFound : Bool
  reviews : JVal

/-- Observable outcome of one POST /api/scan request; visionCalled
records whether the handler reached the model call. -/
structure ScanResponse where
  status : ℕ
  success : Bool
  error : Option String
  data : Option ScanResultR
  visionCalled : Bool

/-- POST of src/app/api/scan/route.ts.  visionThrows models the model
call throwing (caught by the outer handler), aiResponse the optional
message content, parse JSON.parse, reviewsResult the outcome of the
nested reviews fetch (null or data), now the Date.now() clock reading.
A string-valued image entry is truthy but has no arrayBuffer method, so
the handler throws and the outer catch returns 500. -/
def POST (form : List (String × FormVal)) (visionThrows : Bool)
    (aiResponse : Option String) (parse : String → Option CoffeeExtractionJ)
    (reviewsResult : Option JVal) (now : ℤ) : ScanResponse :=
  match formGet form "image" with
  | none =>
    { status := 400, success := false, error := some "No image provided"
      data := none, visionCalled := false }
  | some v =>
    if formTruthy v then
      match v with
      | .str _ =>
        { status := 500, success := false, error := some "AI processing failed"
          data := none, visionCalled := false }
      | .file =>
        if visionThrows then
          { status := 500, success := false, error := some "AI processing failed"
            data := none, visionCalled := true }
        else
          let includeReviews :=
            match formGet form "includeReviews" with
            | some (.str s) => s = "true"
            | _ => false
          let cleanResponse := scanClean aiResponse
          let extraction :=
            match parse cleanResponse with
            | some e => e
            | none => unableRecord
          let cond := includeReviews && jtruthy extraction.roaster
            && jtruthy extraction.productName
            && !(jvalIsStr extraction.roaster "Unable to extract")
            && !(jvalIsStr extraction.productName "Unable to extract")
          let reviewsFound : JVal × Bool :=
            if cond then
              match reviewsResult with
              | some r => (r, true)
              | none => (.null, false)
            else (.null, false)
          { status := 200, success := true, error := none
            data := some
              { id := toString now
                extraction := extraction
                confidence := scanConfidence
                processingMethod := "vision"
                processingTime := now
                productSearched := cond
                productFound := reviewsFound.2
                reviews := reviewsFound.1 }
            visionCalled := true }
    else
      { status := 400, success := false, error := some "No image provided"
        data := none, visionCalled := false }

end ScanRoute

/-- Keys of a serialized JSON object (empty for non-objects). -/
def jsonKeys (v : JVal) : List String :=
  match v with
  | .obj l => l.map (fun e => e.1)
  | _ => []

namespace ReviewsV1

/-- Product information scraped by scrapeProductPage (first revision):
title and url strings, optional price text, review count and rating. -/
structure ProductInfo where
  title : String
  price : Option String
  totalReviews : ℤ
  averageRating : ℚ
  url : String
  source : String

/-- A generated product review (all fields are populated by the
templates). -/
structure Review where
  id : String
  author : String
  rating : ℤ
  title : String
  comment : String
  date : String
  verified : Bool
  helpful : ℤ
  source : String

/-- The productPage object of the first revision's summary. -/
structure ProductPage where
  url : String
  title : String
  price : Option String
  source : String

/-- ReviewSummary of the first revision of the reviews route. -/
structure ReviewSummary where
  totalReviews : ℤ
  averageRating : ℚ
  ratingDistribution : RatingDist
  recentReviews : List Review
  productPage : Option ProductPage

/-- Math.min(5, Math.max(1, r)) applied to template ratings. -/
def clampRating (z : ℤ) : ℤ := min 5 (max 1 z)

/-- The four review templates of generateContextualReviews; the helpful
counts consume one uniform draw each. -/
def reviewTemplates (roaster productName : String) (averageRating : ℚ)
    (rH1 rH2 rH3 rH4 : ℚ) : List Review :=
  [ { id := ""
      author := "CoffeeEnthusiast"
      rating := clampRating (jround averageRating)
      title := "Great " ++ productName ++ "!"
      comment := "Really enjoyed this " ++ productName ++ " from " ++ roaster
        ++ ". The flavor profile is exactly what I was looking for. Will definitely order again."
      date := "2024-08-15"
      verified := true
      helpful := ⌊rH1 * 10⌋ + 1
      source := "website" }
  , { id := ""
      author := "JavaLover"
      rating := clampRating (jround averageRating - 1)
      title := "Solid choice"
      comment := (if 4.5 ≤ averageRating then "Excellent quality and" else "Decent")
        ++ " consistent quality from " ++ roaster ++ ". Would "
        ++ (if 4 ≤ averageRating then "definitely" else "probably") ++ " order again."
      date := "2024-08-05"
      verified := false
      helpful := ⌊rH2 * 5⌋ + 1
      source := "third-party" }
  , { id := ""
      author := "CoffeeLover22"
      rating := clampRating (jround averageRating + 1)
      title := "My new favorite!"
      comment := "Absolutely love this " ++ productName
        ++ "! The aroma when you open the bag is incredible. " ++ roaster
        ++ " has become my go-to roaster."
      date := "2024-07-27"
      verified := true
      helpful := ⌊rH3 * 20⌋ + 5
      source := "website" }
  , { id := ""
      author := "BaristaLife"
      rating := jround averageRating
      title := "Perfect for espresso"
      comment := "This " ++ productName
        ++ " pulls amazing shots. Great crema and balanced flavor. " ++ roaster
        ++ " knows what they\x27re doing."
      date := "2024-07-20"
      verified := true
      helpful := ⌊rH4 * 8⌋ + 2
      source := "amazon" } ]

/-- generateContextualReviews of the first revision: real totals and
rating when the product info provides positive values, otherwise mock
values from uniform draws; four templates are shuffled, sliced and given
random ids.  rTotal, rAvg, rSel are the Math.random() draws for the mock
total, the mock rating and the slice length; shuffle stands for the
random-comparator sort (any rearrangement of the list); idGen for the
random id of the i-th selected review. -/
def generateContextualReviews (roaster productName : String) (pi : Option ProductInfo)
    (rTotal rAvg rSel rH1 rH2 rH3 rH4 : ℚ)
    (shuffle : List Review → List Review) (idGen : ℕ → String) : ReviewSummary :=
  let totalReviews : ℤ :=
    match pi with
    | some p => if 0 < p.totalReviews then p.totalReviews else ⌊rTotal * 50⌋ + 15
    | none => ⌊rTotal * 50⌋ + 15
  let averageRating : ℚ :=
    match pi with
    | some p => if 0 < p.averageRating then p.averageRating else roundTenth (rAvg * 1.5 + 3.5)
    | none => roundTenth (rAvg * 1.5 + 3.5)
  let distribution := generateRatingDistribution totalReviews averageRating
  let templates := reviewTemplates roaster productName averageRating rH1 rH2 rH3 rH4
  let count : ℤ := min 4 (⌊rSel * 2⌋ + 3)
  let selectedReviews :=
    ((shuffle templates).take count.toNat).enum.map (fun p => { p.2 with id := idGen p.1 })
  { totalReviews := totalReviews
    averageRating := averageRating
    ratingDistribution := distribution
    recentReviews := selectedReviews
    productPage := pi.map (fun p =>
      { url := p.url
        title := if p.title ≠ "" then p.title else roaster ++ " " ++ productName
        price := p.price
        source := if p.source ≠ "" then p.source else "website" }) }

/-- fetchReviews of the first revision: use the scraped product info when
it reports reviews, otherwise generate mock data; searchResult stands for
the outcome of searchForProductPage (none when every scraping source
found nothing). -/
def fetchReviews (roaster productName : String) (searchResult : Option ProductInfo)
    (rTotal rAvg rSel rH1 rH2 rH3 rH4 : ℚ)
    (shuffle : List Review → List Review) (idGen : ℕ → String) : ReviewSummary :=
  match searchResult with
  | some p =>
    if 0 < p.totalReviews then
      generateContextualReviews roaster productName (some p)
        rTotal rAvg rSel rH1 rH2 rH3 rH4 shuffle idGen
    else
      generateContextualReviews roaster productName none
        rTotal rAvg rSel rH1 rH2 rH3 rH4 shuffle idGen
  | none =>
    generateContextualReviews roaster productName none
      rTotal rAvg rSel rH1 rH2 rH3 rH4 shuffle idGen

/-- JSON serialization of a generated review (the spread in the map puts
the id last). -/
def reviewJson (r : Review) : JVal :=
  .obj [("author", .str r.author), ("rating", .num (r.rating : ℚ)),
    ("title", .str r.title), ("comment", .str r.comment), ("date", .str r.date),
    ("verified", .bool r.verified), ("helpful", .num (r.helpful : ℚ)),
    ("source", .str r.source), ("id", .str r.id)]

end ReviewsV1

/-- JSON serialization of the five-bucket rating distribution. -/
def distJson (d : RatingDist) : JVal :=
  .obj [("1", .num (d.s1 : ℚ)), ("2", .num (d.s2 : ℚ)), ("3", .num (d.s3 : ℚ)),
    ("4", .num (d.s4 : ℚ)), ("5", .num (d.s5 : ℚ))]

namespace ReviewsV1

/-- JSON serialization of the productPage object (a null price is kept by
JSON.stringify, an undefined description is dropped). -/
def pageJson (p : ProductPage) : JVal :=
  .obj [("url", .str p.url), ("title", .str p.title),
    ("price", match p.price with | some s => .str s | none => .null),
    ("source", .str p.source)]

/-- JSON serialization of the first revision's ReviewSummary (an
undefined productPage is dropped by JSON.stringify). -/
def summaryJson (s : ReviewSummary) : JVal :=
  .obj ([("totalReviews", .num (s.totalReviews : ℚ)),
    ("averageRating", .num s.averageRating),
    ("ratingDistribution", distJson s.ratingDistribution),
    ("recentReviews", .arr (s.recentReviews.map reviewJson))]
    ++ (match s.productPage with
        | some p => [("productPage", pageJson p)]
        | none => []))

/-- Response of one GET /api/reviews request (first revision). -/
structure RouteResponse where
  status : ℕ
  success : Bool
  error : Option String
  data : Option JVal

/-- GET of the first revision of src/app/api/reviews/route.ts: 400 when
either query parameter is missing or empty, otherwise the serialized
summary from fetchReviews. -/
def GET (roasterQ productNameQ : Option String) (searchResult : Option ProductInfo)
    (rTotal rAvg rSel rH1 rH2 rH3 rH4 : ℚ)
    (shuffle : List Review → List Review) (idGen : ℕ → String) : RouteResponse :=
  match roasterQ, productNameQ with
  | some r, some p =>
    if r ≠ "" ∧ p ≠ "" then
      { status := 200, success := true, error := none
        data := some (summaryJson (fetchReviews r p searchResult
          rTotal rAvg rSel rH1 rH2 rH3 rH4 shuffle idGen)) }
    else
      { status := 400, success := false
        error := some "Roaster and product name are required", data := none }
  | _, _ =>
    { status := 400, success := false
      error := some "Roaster and product name are required", data := none }

end ReviewsV1

namespace ReviewsV2

/-- Reddit sentiment labels of the second revision. -/
inductive Sentiment where
  | positive
  | neutral
  | negative
  | mixed
deriving DecidableEq

/-- String form of a sentiment label. -/
def sentimentStr : Sentiment → String
  | .positive => "positive"
  | .neutral => "neutral"
  | .negative => "negative"
  | .mixed => "mixed"

/-- Data-source platforms of the second revision. -/
inductive Platform where
  | amazon
  | reddit
  | official
  | estimated
deriving DecidableEq

/-- String form of a platform label. -/
def platformStr : Platform → String
  | .amazon => "Amazon"
  | .reddit => "Reddit"
  | .official => "Official Website"
  | .estimated => "Estimated"

/-- Data-source type labels of the second revision. -/
inductive SrcType where
  | aggregated
  | sentiment
  | summary
deriving DecidableEq

/-- String form of a source-type label. -/
def srcTypeStr : SrcType → String
  | .aggregated => "aggregated"
  | .sentiment => "sentiment"
  | .summary => "summary"

/-- Metrics block of a data source (rating, review count and sentiment
are optional). -/
structure Metrics where
  rating : Option ℚ := none
  reviewCount : Option ℕ := none
  sentiment : Option Sentiment := none
  confidence : ℚ

/-- A data source entry of the second revision (url is a raw JSON value:
it may be a string, null, or absent). -/
structure DataSource where
  id : String
  platform : Platform
  type : SrcType
  metrics : Metrics
  summary : String
  url : JVal := .undefined
  lastUpdated : String

/-- Result of scrapeAmazonData when it succeeds: the outer guard keeps
only truthy (nonzero) rating and review count, so the count is at least
one and the rating nonzero; the product url may be null. -/
structure AmazonData where
  rating : ℚ
  reviewCount : ℕ
  productUrl : JVal := .null
  confidence : ℚ

/-- Result of analyzeRedditSentiment when it succeeds: at least one post
was found and the estimated rating is clamped into [1, 5]. -/
structure RedditData where
  mentionCount : ℕ
  sentiment : Sentiment
  estimatedRating : ℚ
  sentimentBreakdown : String
  confidence : ℚ

/-- Shape of a successful scrapeOfficialWebsite result as consumed by the
aggregation (the current implementation never produces one). -/
structure WebsiteData where
  rating : ℚ
  reviewCount : ℕ
  url : JVal := .undefined
  confidence : ℚ

/-- scrapeOfficialWebsite of the second revision always returns null. -/
def scrapeOfficialWebsite : Option WebsiteData := none

/-- One sample feedback entry. -/
structure SampleFeedback where
  id : String
  rating : ℤ
  source : String
  comment : String
  type : String

/-- overallMetrics block of the aggregated data. -/
structure OverallMetrics where
  averageRating : ℚ
  totalDataPoints : ℕ
  confidenceLevel : ℚ
  sourcesCount : ℕ

/-- aggregatedData block of the second revision's summary. -/
structure AggregatedData where
  overallMetrics : OverallMetrics
  dataSources : List DataSource
  consensusSummary : String
  disclaimer : String
  sampleFeedback : List SampleFeedback

/-- productPage object of the second revision's summary. -/
structure ProductPage where
  url : JVal
  title : String
  description : String
  source : String

/-- ReviewSummary of the second revision: aggregatedData replaces the
first revision's recentReviews field. -/
structure ReviewSummary where
  totalReviews : ℕ
  averageRating : ℚ
  ratingDistribution : RatingDist
  aggregatedData : AggregatedData
  productPage : Option ProductPage

/-- Rating/weight/data-point contribution of one fulfilled source to the
weighted totals (zero when the source is absent). -/
structure Contrib where
  rating : ℚ
  weight : ℚ
  points : ℕ

/-- Contribution of the Amazon source: weight is confidence times
lg(1 + review count), where lg models Math.log. -/
def amazonContrib (lg : ℕ → ℚ) (amazon : Option AmazonData) : Contrib :=
  match amazon with
  | some a =>
    let w := a.confidence * lg (1 + a.reviewCount)
    { rating := a.rating * w, weight := w, points := a.reviewCount }
  | none => { rating := 0, weight := 0, points := 0 }

/-- Contribution of the Reddit source: only added when the estimated
rating is truthy (nonzero). -/
def redditContrib (lg : ℕ → ℚ) (reddit : Option RedditData) : Contrib :=
  match reddit with
  | some rd =>
    if rd.estimatedRating ≠ 0 then
      let w := rd.confidence * lg (1 + rd.mentionCount)
      { rating := rd.estimatedRating * w, weight := w, points := rd.mentionCount }
    else { rating := 0, weight := 0, points := 0 }
  | none => { rating := 0, weight := 0, points := 0 }

/-- Contribution of the official-website source. -/
def websiteContrib (lg : ℕ → ℚ) (website : Option WebsiteData) : Contrib :=
  match website with
  | some w =>
    let wt := w.confidence * lg (1 + w.reviewCount)
    { rating := w.rating * wt, weight := wt, points := w.reviewCount }
  | none => { rating := 0, weight := 0, points := 0 }

/-- Math.max over a list of rationals (only used on nonempty lists). -/
def listMax : List ℚ → ℚ
  | [] => 0
  | a :: t => t.foldl max a

/-- The Estimated data source pushed when no source produced data. -/
def estimatedSource (roaster currentDate : String) : DataSource :=
  { id := "estimated", platform := .estimated, type := .summary
    metrics := { rating := some 3.5, confidence := 0.3 }
    summary := "No review data found across Amazon, Reddit, or official websites. This is an estimated rating based on similar products from "
      ++ roaster ++ "."
    lastUpdated := currentDate }

/-- generateConsensusSummary of the second revision. -/
def generateConsensusSummary (sources : List DataSource) (overallRating : ℚ) : String :=
  let platformNames := String.intercalate ", " (sources.map (fun s => platformStr s.platform))
  let totalPoints := (sources.map (fun s => s.metrics.reviewCount.getD 0)).sum
  let ratingText :=
    if 4.5 ≤ overallRating then "Excellent"
    else if 4.0 ≤ overallRating then "Very Good"
    else if 3.5 ≤ overallRating then "Good"
    else if 3.0 ≤ overallRating then "Average"
    else "Below Average"
  match sources with
  | [] => "Limited data available. Estimated rating based on similar products."
  | s0 :: _ =>
    if s0.platform = .estimated then
      "Limited data available. Estimated rating based on similar products."
    else
      ratingText ++ " rating (" ++ jsNumStr overallRating ++ "/5) based on "
        ++ toString totalPoints ++ " data points from " ++ platformNames ++ "."

/-- generateSampleFeedback of the second revision; the trailing while
loop that pads to three entries (push of sample-filler-n where n is the
current length) is written in closed form, and the final slice keeps
exactly three. -/
def generateSampleFeedback (sources : List DataSource) (overallRating : ℚ)
    (roaster productName : String) : List SampleFeedback :=
  let amazonSource := sources.find? (fun s => s.platform = .amazon)
  let redditSource := sources.find? (fun s => s.platform = .reddit)
  let websiteSource := sources.find? (fun s => s.platform = .official)
  let positivePart : List SampleFeedback :=
    if 4.0 ≤ overallRating ∧ amazonSource.isSome then
      [{ id := "sample-positive", rating := 5, source := "Amazon Verified"
         comment := "Consistently excellent coffee. The " ++ productName
           ++ " has become my daily go-to. Rich flavor without being too intense."
         type := "positive" }]
    else if 3.5 ≤ overallRating then
      [{ id := "sample-positive", rating := 4, source := "Customer Review"
         comment := "Good value for a daily drinker. The " ++ productName ++ " from "
           ++ roaster ++ " delivers consistent quality."
         type := "positive" }]
    else []
  let redditPart : List SampleFeedback :=
    match redditSource with
    | some rs =>
      match rs.metrics.sentiment with
      | some .mixed =>
        [{ id := "sample-mixed", rating := 3, source := "r/Coffee Discussion"
           comment := "Decent coffee but nothing special. Some people love it, others think it\x27s overrated for the price. Your mileage may vary."
           type := "mixed" }]
      | some .neutral =>
        [{ id := "sample-mixed", rating := 3, source := "r/Coffee Discussion"
           comment := "Decent coffee but nothing special. Some people love it, others think it\x27s overrated for the price. Your mileage may vary."
           type := "mixed" }]
      | some .positive =>
        [{ id := "sample-reddit", rating := 4, source := "r/Coffee Discussion"
           comment := "The coffee community appreciates " ++ roaster
             ++ "\x27s work here. Solid choice for those who enjoy "
             ++ (if 4 ≤ overallRating then "bold, well-balanced" else "consistent, approachable")
             ++ " coffees."
           type := "positive" }]
      | _ =>
        [{ id := "sample-reddit", rating := 3, source := "r/Coffee Discussion"
           comment := "Mixed opinions in the community. Some find it lacks complexity, while others appreciate its straightforward profile."
           type := "neutral" }]
    | none => []
  let websitePart : List SampleFeedback :=
    match websiteSource with
    | some ws =>
      match ws.metrics.rating with
      | some r =>
        if r ≠ 0 then
          let rating := jround r
          [{ id := "sample-website", rating := rating, source := "Roaster Website"
             comment :=
               if 4 ≤ rating then
                 "Customers appreciate the consistent quality and smooth finish. Works well in various brew methods."
               else
                 "Regular customers find it reliable for daily brewing. Some note it could have more distinctive characteristics."
             type := if 4 ≤ rating then "positive" else "neutral" }]
        else []
      | none => []
    | none => []
  let base := positivePart ++ redditPart ++ websitePart
  let base2 :=
    if base.isEmpty then
      [{ id := "sample-estimated-1", rating := jround overallRating
         source := "Estimated Feedback"
         comment := "Based on similar " ++ roaster ++ " coffees, expect "
           ++ (if 4 ≤ overallRating then "good quality and consistency"
               else "average performance for the price point") ++ "."
         type := "neutral" }
      , { id := "sample-estimated-2", rating := jround overallRating
          source := "General Expectation"
          comment := "Limited data available, but " ++ roaster ++ " typically delivers "
            ++ (if (7/2 : ℚ) ≤ overallRating then "reliable daily drinkers"
                else "basic coffee options") ++ "."
          type := "neutral" }]
    else base
  let filler : ℕ → SampleFeedback := fun n =>
    { id := "sample-filler-" ++ toString n, rating := jround overallRating
      source := "Additional Context"
      comment := productName ++ " represents a "
        ++ (if 4 ≤ overallRating then "solid" else "typical")
        ++ " option in " ++ roaster ++ "\x27s lineup."
      type := "neutral" }
  let padded := base2 ++ (List.range (3 - base2.length)).map (fun i => filler (base2.length + i))
  padded.take 3

/-- fetchAggregatedData of the second revision of
src/app/api/reviews/route.ts.  lg models Math.log, currentDate the date
prefix of new Date().toISOString(); amazon, reddit, website are the
outcomes of the three Promise.allSettled scraping calls (none when a
source failed or found nothing). -/
def fetchAggregatedData (lg : ℕ → ℚ) (currentDate : String)
    (roaster productName : String) (amazon : Option AmazonData)
    (reddit : Option RedditData) (website : Option WebsiteData) : ReviewSummary :=
  let amazonDS : List DataSource :=
    match amazon with
    | some a =>
      [{ id := "amazon-aggregate", platform := .amazon, type := .aggregated
         metrics := { rating := some a.rating, reviewCount := some a.reviewCount
                      confidence := a.confidence }
         summary := "Aggregated from " ++ toString a.reviewCount
           ++ " Amazon customer reviews with an average rating of "
           ++ jsNumStr a.rating ++ "/5 stars."
         url := a.productUrl, lastUpdated := currentDate }]
    | none => []
  let redditDS : List DataSource :=
    match reddit with
    | some rd =>
      [{ id := "reddit-sentiment", platform := .reddit, type := .sentiment
         metrics := { sentiment := some rd.sentiment, reviewCount := some rd.mentionCount
                      confidence := rd.confidence }
         summary := "Sentiment analysis of " ++ toString rd.mentionCount
           ++ " r/Coffee discussions. Overall sentiment: " ++ sentimentStr rd.sentiment
           ++ ". " ++ rd.sentimentBreakdown
         lastUpdated := currentDate }]
    | none => []
  let websiteDS : List DataSource :=
    match website with
    | some w =>
      [{ id := "official-website", platform := .official, type := .aggregated
         metrics := { rating := some w.rating, reviewCount := some w.reviewCount
                      confidence := w.confidence }
         summary := "Data from " ++ toString w.reviewCount
           ++ " reviews on the roaster\x27s official website, averaging "
           ++ jsNumStr w.rating ++ "/5 stars."
         url := w.url, lastUpdated := currentDate }]
    | none => []
  let cA := amazonContrib lg amazon
  let cR := redditContrib lg reddit
  let cW := websiteContrib lg website
  let totalRating := cA.rating + cR.rating + cW.rating
  let totalWeight := cA.weight + cR.weight + cW.weight
  let totalDataPoints0 := cA.points + cR.points + cW.points
  let sourcesList := amazonDS ++ redditDS ++ websiteDS
  let overallRating := if 0 < totalWeight then totalRating / totalWeight else 3.5
  let confidenceLevel :=
    if sourcesList.isEmpty then 0.3
    else min 0.95 ((sourcesList.length : ℚ) * 0.3
      + listMax (sourcesList.map (fun s => s.metrics.confidence)))
  let dataSources :=
    if sourcesList.isEmpty then [estimatedSource roaster currentDate] else sourcesList
  let totalDataPoints := if sourcesList.isEmpty then 0 else totalDataPoints0
  let averageRating := roundTenth overallRating
  let aggregatedData : AggregatedData :=
    { overallMetrics :=
        { averageRating := averageRating
          totalDataPoints := totalDataPoints
          confidenceLevel := confidenceLevel
          sourcesCount := dataSources.length }
      dataSources := dataSources
      consensusSummary := generateConsensusSummary dataSources overallRating
      disclaimer := "This data is aggregated from public sources and analyzed using automated methods. Individual experiences may vary."
      sampleFeedback := generateSampleFeedback dataSources overallRating roaster productName }
  { totalReviews := totalDataPoints
    averageRating := averageRating
    ratingDistribution := generateRatingDistribution (totalDataPoints : ℤ) averageRating
    aggregatedData := aggregatedData
    productPage :=
      match dataSources.find? (fun s => jtruthy s.url) with
      | some s => some
        { url := s.url
          title := productName ++ " - " ++ roaster
          description := aggregatedData.consensusSummary
          source := "aggregated" }
      | none => none }

end ReviewsV2

namespace ReviewsV2

/-- JSON serialization of a metrics block (absent optional fields are
dropped by JSON.stringify). -/
def metricsJson (m : Metrics) : JVal :=
  .obj ((match m.rating with | some r => [("rating", JVal.num r)] | none => [])
    ++ (match m.reviewCount with | some c => [("reviewCount", JVal.num (c : ℚ))] | none => [])
    ++ (match m.sentiment with | some s => [("sentiment", JVal.str (sentimentStr s))] | none => [])
    ++ [("confidence", JVal.num m.confidence)])

/-- JSON serialization of a data source (an undefined url is dropped, a
null url is kept). -/
def dsJson (s : DataSource) : JVal :=
  .obj ([("id", JVal.str s.id), ("platform", JVal.str (platformStr s.platform)),
    ("type", JVal.str (srcTypeStr s.type)), ("metrics", metricsJson s.metrics),
    ("summary", JVal.str s.summary)]
    ++ (match s.url with | .undefined => [] | v => [("url", v)])
    ++ [("lastUpdated", JVal.str s.lastUpdated)])

/-- JSON serialization of a sample feedback entry. -/
def sampleJson (f : SampleFeedback) : JVal :=
  .obj [("id", JVal.str f.id), ("rating", JVal.num (f.rating : ℚ)),
    ("source", JVal.str f.source), ("comment", JVal.str f.comment),
    ("type", JVal.str f.type)]

/-- JSON serialization of the overall metrics block. -/
def omJson (m : OverallMetrics) : JVal :=
  .obj [("averageRating", JVal.num m.averageRating),
    ("totalDataPoints", JVal.num (m.totalDataPoints : ℚ)),
    ("confidenceLevel", JVal.num m.confidenceLevel),
    ("sourcesCount", JVal.num (m.sourcesCount : ℚ))]

/-- JSON serialization of the aggregatedData block. -/
def aggJson (a : AggregatedData) : JVal :=
  .obj [("overallMetrics", omJson a.overallMetrics),
    ("dataSources", JVal.arr (a.dataSources.map dsJson)),
    ("consensusSummary", JVal.str a.consensusSummary),
    ("disclaimer", JVal.str a.disclaimer),
    ("sampleFeedback", JVal.arr (a.sampleFeedback.map sampleJson))]

/-- JSON serialization of the second revision's productPage. -/
def pageJson (p : ProductPage) : JVal :=
  .obj [("url", p.url), ("title", JVal.str p.title),
    ("description", JVal.str p.description), ("source", JVal.str p.source)]

/-- JSON serialization of the second revision's ReviewSummary; there is
no recentReviews entry, the aggregatedData field takes its place. -/
def summaryJson (s : ReviewSummary) : JVal :=
  .obj ([("totalReviews", JVal.num (s.totalReviews : ℚ)),
    ("averageRating", JVal.num s.averageRating),
    ("ratingDistribution", distJson s.ratingDistribution),
    ("aggregatedData", aggJson s.aggregatedData)]
    ++ (match s.productPage with
        | some p => [("productPage", pageJson p)]
        | none => []))

/-- Response of one GET /api/reviews request (second revision). -/
structure RouteResponse where
  status : ℕ
  success : Bool
  error : Option String
  data : Option JVal

/-- GET of the second revision of src/app/api/reviews/route.ts. -/
def GET (roasterQ productNameQ : Option String) (lg : ℕ → ℚ) (currentDate : String)
    (amazon : Option AmazonData) (reddit : Option RedditData)
    (website : Option WebsiteData) : RouteResponse :=
  match roasterQ, productNameQ with
  | some r, some p =>
    if r ≠ "" ∧ p ≠ "" then
      { status := 200, success := true, error := none
        data := some (summaryJson (fetchAggregatedData lg currentDate r p
          amazon reddit website)) }
    else
      { status := 400, success := false
        error := some "Roaster and product name are required", data := none }
  | _, _ =>
    { status := 400, success := false
      error := some "Roaster and product name are required", data := none }

end ReviewsV2

theorem padTake3_length {α : Type} (l : List α) (f : ℕ → α) :
    ((l ++ (List.range (3 - l.length)).map f).take 3).length = 3 := by
  simp [List.length_take]
  omega

/-- C1 counterexample: for one total review and an average rating of 4.6,
the second revision's generateRatingDistribution returns buckets that do
not sum to the total (all floor shares vanish and there is no fix-up). -/
theorem c1_counterexample :
    ¬ sumDist (ReviewsV2.generateRatingDistribution 1 (46/10)) = 1 := by
  norm_num [ReviewsV2.generateRatingDistribution, sumDist]

/-- C1 (amended): for every nonnegative total, the first revision's
generateRatingDistribution has its five buckets summing exactly to the
total whenever the average rating lies in [1, 5] (so that the fix-up
lands in an existing bucket); the second revision's buckets only sum to
at most the total. -/
theorem c1_distribution_sum (total : ℤ) (averageRating : ℚ) (ht : 0 ≤ total) :
    (1 ≤ averageRating → averageRating ≤ 5 →
      sumDist (ReviewsV1.generateRatingDistribution total averageRating) = total)
    ∧ sumDist (ReviewsV2.generateRatingDistribution total averageRating) ≤ total :=
  ⟨fun h1 h5 => reviewsV1_dist_sum total averageRating ht h1 h5,
   reviewsV2_dist_sum_le total averageRating ht⟩

/-- C1 witness: the amended statement evaluated at 20 reviews with
average 4.6. -/
theorem c1_witness :
    (sumDist (ReviewsV1.generateRatingDistribution 20 (46/10)) = 20)
    ∧ sumDist (ReviewsV2.generateRatingDistribution 20 (46/10)) ≤ 20 :=
  ⟨(c1_distribution_sum 20 (46/10) (by norm_num)).1 (by norm_num) (by norm_num),
   (c1_distribution_sum 20 (46/10) (by norm_num)).2⟩

/-- C4: whenever JSON parsing of the fence-stripped response fails,
extractWithVision substitutes the regex fallback extraction of the raw
response text: its returned structured data is the cleaned fallback
record and its confidence is scored on the fallback record. -/
theorem c4_parse_failure_fallback (parse : String → Option CoffeeExtractionJ)
    (depth : Depth) (nowYear : ℚ) (raw : String)
    (h : parse (stripFences raw) = none) :
    (extractWithVision parse depth nowYear raw).structuredData
        = cleanExtractionData (extractFallbackData raw) depth nowYear
    ∧ (extractWithVision parse depth nowYear raw).confidence
        = calculateExtractionConfidence (extractFallbackData raw) depth := by
  unfold extractWithVision
  rw [h]
  exact ⟨rfl, rfl⟩

/-- C4 witness: a raw response that is not JSON, with a parser that
rejects everything. -/
theorem c4_witness :
    (extractWithVision (fun _ => none) Depth.basic 2024 "Roaster: Blue Bottle").structuredData
        = cleanExtractionData (extractFallbackData "Roaster: Blue Bottle") Depth.basic 2024
    ∧ (extractWithVision (fun _ => none) Depth.basic 2024 "Roaster: Blue Bottle").confidence
        = calculateExtractionConfidence (extractFallbackData "Roaster: Blue Bottle") Depth.basic :=
  c4_parse_failure_fallback (fun _ => none) Depth.basic 2024 "Roaster: Blue Bottle" rfl

/-- C5: in the scan route, when JSON parsing of the cleaned model
response fails, the substituted extraction is the fixed record whose
roaster, productName, origin and roastLevel are all the string Unable to
extract and whose flavorNotes is the empty array. -/
theorem c5_parse_failure_fixed_record (form : List (String × ScanRoute.FormVal))
    (aiResponse : Option String) (parse : String → Option CoffeeExtractionJ)
    (reviewsResult : Option JVal) (now : ℤ)
    (hImg : ScanRoute.formGet form "image" = some ScanRoute.FormVal.file)
    (hParse : parse (ScanRoute.scanClean aiResponse) = none) :
    (ScanRoute.POST form false aiResponse parse reviewsResult now).success = true
    ∧ ((ScanRoute.POST form false aiResponse parse reviewsResult now).data.map
        (fun d => d.extraction)) = some ScanRoute.unableRecord := by
  unfold ScanRoute.POST
  rw [hImg]
  simp [ScanRoute.formTruthy, hParse]

/-- C5 witness: a form with an image file and a parser that rejects the
response text. -/
theorem c5_witness :
    (ScanRoute.POST [("image", ScanRoute.FormVal.file)] false (some "not json")
      (fun _ => none) none 0).success = true
    ∧ ((ScanRoute.POST [("image", ScanRoute.FormVal.file)] false (some "not json")
      (fun _ => none) none 0).data.map (fun d => d.extraction))
        = some ScanRoute.unableRecord :=
  c5_parse_failure_fixed_record _ _ _ _ _ rfl rfl

/-- C8: a POST /api/scan request whose form has no image entry yields
status 400 with success false and error No image provided, and the
handler never reaches the vision call. -/
theorem c8_no_image (form : List (String × ScanRoute.FormVal)) (visionThrows : Bool)
    (aiResponse : Option String) (parse : String → Option CoffeeExtractionJ)
    (reviewsResult : Option JVal) (now : ℤ)
    (h : ScanRoute.formGet form "image" = none) :
    ScanRoute.POST form visionThrows aiResponse parse reviewsResult now =
      { status := 400, success := false, error := some "No image provided"
        data := none, visionCalled := false } := by
  unfold ScanRoute.POST
  rw [h]

/-- C8 witness: the empty form. -/
theorem c8_witness :
    ScanRoute.POST [] false none (fun _ => none) none 0 =
      { status := 400, success := false, error := some "No image provided"
        data := none, visionCalled := false } :=
  c8_no_image [] false none (fun _ => none) none 0 rfl

/-- C9: generateSampleFeedback always returns exactly three sample
feedback entries, for every source list, overall rating, roaster and
product name. -/
theorem c9_exactly_three_samples (sources : List ReviewsV2.DataSource)
    (overallRating : ℚ) (roaster productName : String) :
    (ReviewsV2.generateSampleFeedback sources overallRating roaster productName).length
      = 3 := by
  unfold ReviewsV2.generateSampleFeedback
  exact padTake3_length _ _

theorem contribStrNum_nonneg (v : JVal) (w : ℚ) (hw : 0 ≤ w) :
    0 ≤ contribStrNum v w := by
  cases v <;> simp only [contribStrNum] <;>
    first
      | (split_ifs <;> simp [hw])
      | norm_num

theorem contribArr_nonneg (v : JVal) (w : ℚ) (hw : 0 ≤ w) :
    0 ≤ contribArr v w := by
  cases v <;> simp only [contribArr] <;>
    first
      | (split_ifs <;> simp [hw])
      | norm_num

/-- C6: for every extraction record and extraction depth, the extraction
confidence of calculateExtractionConfidence lies in [0, 1], and the scan
route's constant confidence 0.9 lies in [0, 1]. -/
theorem c6_confidence_in_unit_interval (data : CoffeeExtractionJ) (depth : Depth) :
    (0 ≤ calculateExtractionConfidence data depth
      ∧ calculateExtractionConfidence data depth ≤ 1)
    ∧ (0 ≤ ScanRoute.scanConfidence ∧ ScanRoute.scanConfidence ≤ 1) := by
  refine ⟨?_, by norm_num [ScanRoute.scanConfidence]⟩
  cases depth with
  | basic =>
    refine ⟨le_min (div_nonneg ?_ (by norm_num)) (by norm_num), min_le_right _ _⟩
    have h1 := contribStrNum_nonneg data.roaster (0.35 : ℚ) (by norm_num)
    have h2 := contribStrNum_nonneg data.productName (0.25 : ℚ) (by norm_num)
    have h3 := contribStrNum_nonneg data.origin (0.15 : ℚ) (by norm_num)
    have h4 := contribStrNum_nonneg data.roastLevel (0.1 : ℚ) (by norm_num)
    have h5 := contribArr_nonneg data.flavorNotes (0.1 : ℚ) (by norm_num)
    have h6 := contribArr_nonneg data.brewRecommendations (0.05 : ℚ) (by norm_num)
    linarith
  | detailed =>
    refine ⟨le_min (div_nonneg ?_ (by norm_num)) (by norm_num), min_le_right _ _⟩
    have h1 := contribStrNum_nonneg data.roaster (0.3 : ℚ) (by norm_num)
    have h2 := contribStrNum_nonneg data.productName (0.2 : ℚ) (by norm_num)
    have h3 := contribStrNum_nonneg data.origin (0.2 : ℚ) (by norm_num)
    have h4 := contribStrNum_nonneg data.roastLevel (0.1 : ℚ) (by norm_num)
    have h5 := contribArr_nonneg data.flavorNotes (0.1 : ℚ) (by norm_num)
    have h6 := contribStrNum_nonneg data.processingMethod (0.05 : ℚ) (by norm_num)
    have h7 := contribArr_nonneg data.varietal (0.05 : ℚ) (by norm_num)
    linarith

theorem string_ne_empty_of_length_pos (s : String) (h : 0 < s.length) : s ≠ "" := by
  intro he
  rw [he] at h
  exact absurd h (by decide)

/-- Well-formedness of a cleaned array field: when present, it is
duplicate-free, has at most six entries, and every entry is a nonempty
string of length below thirty. -/
def arrFieldOk (o : Option (List String)) : Prop :=
  match o with
  | none => True
  | some l => l.Nodup ∧ l.length ≤ 6 ∧ l.Forall (fun s => s ≠ "" ∧ s.length < 30)

theorem dedupTake_ok (l3 : List String)
    (hpred : ∀ s ∈ l3, s ≠ "" ∧ s.length < 30) :
    arrFieldOk (if (l3.take 6).isEmpty then none else some (dedupFirst (l3.take 6))) := by
  by_cases h : (l3.take 6).isEmpty
  · simp [h, arrFieldOk]
  · simp only [h, if_false]
    refine ⟨dedupFirst_nodup _, (dedupFirst_length _).trans (List.length_take_le _ _), ?_⟩
    rw [List.forall_iff_forall_mem]
    intro s hs
    exact hpred s (List.take_subset _ _ (dedupFirst_subset _ s hs))

theorem cleanArrayField_ok (brew : Bool) (v : JVal) :
    arrFieldOk (cleanArrayField brew v) := by
  cases v with
  | arr items =>
    exact dedupTake_ok _ (fun s hs => by
      have hpred := (List.mem_filter.mp hs).2
      simp only [Bool.and_eq_true, decide_eq_true_eq] at hpred
      exact ⟨string_ne_empty_of_length_pos s hpred.1, hpred.2⟩)
  | undefined => trivial
  | null => trivial
  | bool b => trivial
  | num q => trivial
  | str s => trivial
  | obj l => trivial

/-- C10: every array field of the output of cleanExtractionData
(flavorNotes, varietal, brewRecommendations) is duplicate-free, has at
most six entries, and each entry is a nonempty string shorter than 30
characters. -/
theorem c10_clean_array_fields (data : CoffeeExtractionJ) (depth : Depth) (nowYear : ℚ) :
    arrFieldOk ((cleanExtractionData data depth nowYear).flavorNotes)
    ∧ arrFieldOk ((cleanExtractionData data depth nowYear).varietal)
    ∧ arrFieldOk ((cleanExtractionData data depth nowYear).brewRecommendations) := by
  refine ⟨?_, ?_, ?_⟩
  · exact cleanArrayField_ok false data.flavorNotes
  · cases depth with
    | basic => exact trivial
    | detailed => exact cleanArrayField_ok false data.varietal
  · exact cleanArrayField_ok true data.brewRecommendations

namespace ReviewsV2

/-- Spec-side list of the (rating, weight) pairs of the sources that
yield a rating, with weight confidence times lg(1 + review count), as the
claim describes the aggregation. -/
def ratedContribs (lg : ℕ → ℚ) (amazon : Option AmazonData)
    (reddit : Option RedditData) (website : Option WebsiteData) : List (ℚ × ℚ) :=
  (match amazon with
   | some a => [(a.rating, a.confidence * lg (1 + a.reviewCount))]
   | none => [])
  ++ (match reddit with
      | some rd =>
        if rd.estimatedRating ≠ 0 then
          [(rd.estimatedRating, rd.confidence * lg (1 + rd.mentionCount))]
        else []
      | none => [])
  ++ (match website with
      | some w => [(w.rating, w.confidence * lg (1 + w.reviewCount))]
      | none => [])

theorem ratedContribs_weight_sum (lg : ℕ → ℚ) (amazon : Option AmazonData)
    (reddit : Option RedditData) (website : Option WebsiteData) :
    ((ratedContribs lg amazon reddit website).map (fun p => p.2)).sum
      = (amazonContrib lg amazon).weight + (redditContrib lg reddit).weight
        + (websiteContrib lg website).weight := by
  rcases amazon with _ | a <;> rcases reddit with _ | rd <;> rcases website with _ | w <;>
    simp [ratedContribs, amazonContrib, redditContrib, websiteContrib] <;>
    split_ifs <;> simp <;> ring

theorem ratedContribs_rating_sum (lg : ℕ → ℚ) (amazon : Option AmazonData)
    (reddit : Option RedditData) (website : Option WebsiteData) :
    ((ratedContribs lg amazon reddit website).map (fun p => p.1 * p.2)).sum
      = (amazonContrib lg amazon).rating + (redditContrib lg reddit).rating
        + (websiteContrib lg website).rating := by
  rcases amazon with _ | a <;> rcases reddit with _ | rd <;> rcases website with _ | w <;>
    simp [ratedContribs, amazonContrib, redditContrib, websiteContrib] <;>
    split_ifs <;> simp <;> ring

end ReviewsV2

/-- C3: the aggregated average rating is the weighted average over the
(at most three) scraped sources: whenever at least one source yields a
rating, averageRating equals the sum of rating times weight divided by
the sum of weights, rounded to one decimal, with weight equal to
confidence times lg(1 + review count); when no source yields a rating it
defaults to 3.5.  The hypotheses record what the scrapers guarantee about
any fulfilled source (at least one review or mention, positive
confidence, a Reddit estimate clamped to at least 1) and that lg, the
model of Math.log, is positive on arguments at least 2. -/
theorem c3_weighted_average (lg : ℕ → ℚ) (currentDate roaster productName : String)
    (amazon : Option ReviewsV2.AmazonData) (reddit : Option ReviewsV2.RedditData)
    (website : Option ReviewsV2.WebsiteData)
    (hlg : ∀ n, 2 ≤ n → 0 < lg n)
    (ha : ∀ a, amazon = some a → 1 ≤ a.reviewCount ∧ 0 < a.confidence)
    (hr : ∀ rd, reddit = some rd →
      1 ≤ rd.mentionCount ∧ 0 < rd.confidence ∧ 1 ≤ rd.estimatedRating)
    (hw : ∀ w, website = some w → 1 ≤ w.reviewCount ∧ 0 < w.confidence) :
    (ReviewsV2.ratedContribs lg amazon reddit website ≠ [] →
      (ReviewsV2.fetchAggregatedData lg currentDate roaster productName
          amazon reddit website).averageRating
        = roundTenth
            (((ReviewsV2.ratedContribs lg amazon reddit website).map
                (fun p => p.1 * p.2)).sum
              / ((ReviewsV2.ratedContribs lg amazon reddit website).map
                  (fun p => p.2)).sum))
    ∧ (ReviewsV2.ratedContribs lg amazon reddit website = [] →
      (ReviewsV2.fetchAggregatedData lg currentDate roaster productName
          amazon reddit website).averageRating = 7/2) := by
  have havg : (ReviewsV2.fetchAggregatedData lg currentDate roaster productName
      amazon reddit website).averageRating
      = roundTenth
          (if 0 < (ReviewsV2.amazonContrib lg amazon).weight
              + (ReviewsV2.redditContrib lg reddit).weight
              + (ReviewsV2.websiteContrib lg website).weight
           then ((ReviewsV2.amazonContrib lg amazon).rating
              + (ReviewsV2.redditContrib lg reddit).rating
              + (ReviewsV2.websiteContrib lg website).rating)
            / ((ReviewsV2.amazonContrib lg amazon).weight
              + (ReviewsV2.redditContrib lg reddit).weight
              + (ReviewsV2.websiteContrib lg website).weight)
           else 3.5) := rfl
  have hwa : 0 ≤ (ReviewsV2.amazonContrib lg amazon).weight := by
    rcases amazon with _ | a
    · simp [ReviewsV2.amazonContrib]
    · have h := ha a rfl
      have hl := hlg (1 + a.reviewCount) (by omega)
      simp only [ReviewsV2.amazonContrib]
      exact le_of_lt (mul_pos h.2 hl)
  have hwr : 0 ≤ (ReviewsV2.redditContrib lg reddit).weight := by
    rcases reddit with _ | rd
    · simp [ReviewsV2.redditContrib]
    · have h := hr rd rfl
      have hl := hlg (1 + rd.mentionCount) (by omega)
      simp only [ReviewsV2.redditContrib]
      split_ifs
      · exact le_of_lt (mul_pos h.2.1 hl)
      · norm_num
  have hww : 0 ≤ (ReviewsV2.websiteContrib lg website).weight := by
    rcases website with _ | w
    · simp [ReviewsV2.websiteContrib]
    · have h := hw w rfl
      have hl := hlg (1 + w.reviewCount) (by omega)
      simp only [ReviewsV2.websiteContrib]
      exact le_of_lt (mul_pos h.2 hl)
  constructor
  · intro hne
    have hpos : 0 < (ReviewsV2.amazonContrib lg amazon).weight
        + (ReviewsV2.redditContrib lg reddit).weight
        + (ReviewsV2.websiteContrib lg website).weight := by
      rcases amazon with _ | a
      · rcases reddit with _ | rd
        · rcases website with _ | w
          · simp [ReviewsV2.ratedContribs] at hne
          · have h := hw w rfl
            have hl := hlg (1 + w.reviewCount) (by omega)
            have : 0 < (ReviewsV2.websiteContrib lg (some w)).weight := by
              simp only [ReviewsV2.websiteContrib]
              exact mul_pos h.2 hl
            linarith
        · have h := hr rd rfl
          have hl := hlg (1 + rd.mentionCount) (by omega)
          have hne0 : rd.estimatedRating ≠ 0 := by
            intro h0
            rw [h0] at h
            linarith [h.2.2]
          have : 0 < (ReviewsV2.redditContrib lg (some rd)).weight := by
            simp only [ReviewsV2.redditContrib, if_pos hne0]
            exact mul_pos h.2.1 hl
          linarith
      · have h := ha a rfl
        have hl := hlg (1 + a.reviewCount) (by omega)
        have : 0 < (ReviewsV2.amazonContrib lg (some a)).weight := by
          simp only [ReviewsV2.amazonContrib]
          exact mul_pos h.2 hl
        linarith
    rw [havg, if_pos hpos, ReviewsV2.ratedContribs_rating_sum,
      ReviewsV2.ratedContribs_weight_sum]
  · intro hempty
    have hz : (ReviewsV2.amazonContrib lg amazon).weight
        + (ReviewsV2.redditContrib lg reddit).weight
        + (ReviewsV2.websiteContrib lg website).weight
        = ((ReviewsV2.ratedContribs lg amazon reddit website).map (fun p => p.2)).sum := by
      rw [ReviewsV2.ratedContribs_weight_sum]
    rw [havg]
    rw [hempty] at hz
    simp at hz
    rw [hz]
    norm_num [roundTenth, jround]

/-- C3 witness: a single Amazon source with rating 4, three reviews and
confidence 0.9, under the constant-one logarithm. -/
theorem c3_witness :
    (ReviewsV2.fetchAggregatedData (fun _ => 1) "2024-01-01" "Roaster" "Product"
        (some { rating := 4, reviewCount := 3, productUrl := .null, confidence := 9/10 })
        none none).averageRating
      = roundTenth
          (((ReviewsV2.ratedContribs (fun _ => 1)
              (some { rating := 4, reviewCount := 3, productUrl := .null, confidence := 9/10 })
              none none).map (fun p => p.1 * p.2)).sum
            / ((ReviewsV2.ratedContribs (fun _ => 1)
                (some { rating := 4, reviewCount := 3, productUrl := .null, confidence := 9/10 })
                none none).map (fun p => p.2)).sum) :=
  (c3_weighted_average (fun _ => 1) "2024-01-01" "Roaster" "Product"
    (some { rating := 4, reviewCount := 3, productUrl := .null, confidence := 9/10 })
    none none
    (fun n _ => by norm_num)
    (fun a h => by cases h; exact ⟨by norm_num, by norm_num⟩)
    (fun rd h => by cases h)
    (fun w h => by cases h)).1 (by decide)

/-- C2 (amended): when every scraping source finds nothing, both
revisions of the reviews operation still return a populated summary
rather than an error or empty result, unconditionally — but the shape of
the fabricated content differs: the first revision (fetchReviews) invents
a positive review count (at least 15), a rating of at least 3.5 and a
nonempty list of templated reviews, while the second revision
(fetchAggregatedData) reports a review count of 0 alongside a rating of
3.5, a single Estimated data source and three templated sample feedback
entries. -/
theorem c2_fallback_unconditional (roaster productName : String)
    (rTotal rAvg rSel rH1 rH2 rH3 rH4 : ℚ)
    (shuffle : List ReviewsV1.Review → List ReviewsV1.Review) (idGen : ℕ → String)
    (lg : ℕ → ℚ) (currentDate : String)
    (hT : 0 ≤ rTotal) (hA : 0 ≤ rAvg) (hS : 0 ≤ rSel)
    (hshuffle : ∀ l, (shuffle l).Perm l) :
    (0 < (ReviewsV1.fetchReviews roaster productName none
        rTotal rAvg rSel rH1 rH2 rH3 rH4 shuffle idGen).totalReviews
      ∧ (7/2 : ℚ) ≤ (ReviewsV1.fetchReviews roaster productName none
        rTotal rAvg rSel rH1 rH2 rH3 rH4 shuffle idGen).averageRating
      ∧ (ReviewsV1.fetchReviews roaster productName none
        rTotal rAvg rSel rH1 rH2 rH3 rH4 shuffle idGen).recentReviews ≠ [])
    ∧ ((ReviewsV2.fetchAggregatedData lg currentDate roaster productName
        none none none).totalReviews = 0
      ∧ (ReviewsV2.fetchAggregatedData lg currentDate roaster productName
        none none none).averageRating = 7/2
      ∧ ((ReviewsV2.fetchAggregatedData lg currentDate roaster productName
        none none none).aggregatedData.dataSources.map (fun d => d.platform))
          = [ReviewsV2.Platform.estimated]
      ∧ (ReviewsV2.fetchAggregatedData lg currentDate roaster productName
        none none none).aggregatedData.sampleFeedback.length = 3) := by
  refine ⟨⟨?_, ?_, ?_⟩, ?_, ?_, ?_, ?_⟩
  · have h : (ReviewsV1.fetchReviews roaster productName none
        rTotal rAvg rSel rH1 rH2 rH3 rH4 shuffle idGen).totalReviews
        = ⌊rTotal * 50⌋ + 15 := rfl
    rw [h]
    have : 0 ≤ ⌊rTotal * 50⌋ := Int.floor_nonneg.mpr (by positivity)
    omega
  · have h : (ReviewsV1.fetchReviews roaster productName none
        rTotal rAvg rSel rH1 rH2 rH3 rH4 shuffle idGen).averageRating
        = roundTenth (rAvg * 1.5 + 3.5) := rfl
    rw [h]
    unfold roundTenth jround
    have h35 : (35 : ℤ) ≤ ⌊(rAvg * 1.5 + 3.5) * 10 + 1/2⌋ := by
      rw [Int.le_floor]
      push_cast
      linarith
    have h35q : (35 : ℚ) ≤ (⌊(rAvg * 1.5 + 3.5) * 10 + 1/2⌋ : ℚ) := by exact_mod_cast h35
    linarith
  · have hrec : (ReviewsV1.fetchReviews roaster productName none
        rTotal rAvg rSel rH1 rH2 rH3 rH4 shuffle idGen).recentReviews
        = ((shuffle (ReviewsV1.reviewTemplates roaster productName
            (roundTenth (rAvg * 1.5 + 3.5)) rH1 rH2 rH3 rH4)).take
          (min 4 (⌊rSel * 2⌋ + 3)).toNat).enum.map
          (fun p => { p.2 with id := idGen p.1 }) := rfl
    have hshlen : (shuffle (ReviewsV1.reviewTemplates roaster productName
        (roundTenth (rAvg * 1.5 + 3.5)) rH1 rH2 rH3 rH4)).length = 4 := by
      rw [(hshuffle _).length_eq]
      rfl
    have hfl : 0 ≤ ⌊rSel * 2⌋ := Int.floor_nonneg.mpr (by positivity)
    have hlen : (ReviewsV1.fetchReviews roaster productName none
        rTotal rAvg rSel rH1 rH2 rH3 rH4 shuffle idGen).recentReviews.length
        = min ((min 4 (⌊rSel * 2⌋ + 3)).toNat) 4 := by
      rw [hrec]
      simp [List.length_take, hshlen]
    have hpos : 0 < (ReviewsV1.fetchReviews roaster productName none
        rTotal rAvg rSel rH1 rH2 rH3 rH4 shuffle idGen).recentReviews.length := by
      rw [hlen]
      omega
    exact List.length_pos.mp hpos
  · rfl
  · have h1 : (ReviewsV2.fetchAggregatedData lg currentDate roaster productName
        none none none).averageRating
        = roundTenth (if (0:ℚ) < 0 + 0 + 0 then (0+0+0)/(0+0+0) else 3.5) := rfl
    rw [h1]
    norm_num [roundTenth, jround]
  · simp [ReviewsV2.fetchAggregatedData, ReviewsV2.amazonContrib, ReviewsV2.redditContrib,
      ReviewsV2.websiteContrib, ReviewsV2.estimatedSource]
  · simp [ReviewsV2.fetchAggregatedData, ReviewsV2.amazonContrib, ReviewsV2.redditContrib,
      ReviewsV2.websiteContrib, ReviewsV2.generateSampleFeedback, ReviewsV2.estimatedSource]

/-- C2 counterexample: when every source fails, the second revision
returns a review count of 0, so the fabricated summary does not carry a
positive review count as claimed. -/
theorem c2_counterexample :
    (ReviewsV2.fetchAggregatedData (fun _ => 0) "2024-01-01" "Roaster" "Product"
      none none none).totalReviews = 0 := rfl

/-- C2 witness: the amended statement evaluated at concrete draws of one
half, the identity shuffle and constant id generation. -/
theorem c2_witness :
    (0 < (ReviewsV1.fetchReviews "R" "P" none (1/2) (1/2) (1/2) (1/2) (1/2) (1/2) (1/2)
        id (fun _ => "x")).totalReviews
      ∧ (7/2 : ℚ) ≤ (ReviewsV1.fetchReviews "R" "P" none (1/2) (1/2) (1/2) (1/2) (1/2)
        (1/2) (1/2) id (fun _ => "x")).averageRating
      ∧ (ReviewsV1.fetchReviews "R" "P" none (1/2) (1/2) (1/2) (1/2) (1/2) (1/2) (1/2)
        id (fun _ => "x")).recentReviews ≠ [])
    ∧ ((ReviewsV2.fetchAggregatedData (fun _ => 0) "d" "R" "P" none none none).totalReviews = 0
      ∧ (ReviewsV2.fetchAggregatedData (fun _ => 0) "d" "R" "P" none none none).averageRating
          = 7/2
      ∧ ((ReviewsV2.fetchAggregatedData (fun _ => 0) "d" "R" "P"
          none none none).aggregatedData.dataSources.map (fun d => d.platform))
            = [ReviewsV2.Platform.estimated]
      ∧ (ReviewsV2.fetchAggregatedData (fun _ => 0) "d" "R" "P"
          none none none).aggregatedData.sampleFeedback.length = 3) :=
  c2_fallback_unconditional "R" "P" (1/2) (1/2) (1/2) (1/2) (1/2) (1/2) (1/2)
    id (fun _ => "x") (fun _ => 0) "d" (by norm_num) (by norm_num) (by norm_num)
    (fun l => List.Perm.refl l)

theorem v1_summary_keys (s : ReviewsV1.ReviewSummary) :
    jsonKeys (ReviewsV1.summaryJson s)
      = ["totalReviews", "averageRating", "ratingDistribution", "recentReviews"]
        ++ (match s.productPage with | some _ => ["productPage"] | none => []) := by
  cases h : s.productPage <;> simp [ReviewsV1.summaryJson, jsonKeys, h]

theorem v2_summary_keys (s : ReviewsV2.ReviewSummary) :
    jsonKeys (ReviewsV2.summaryJson s)
      = ["totalReviews", "averageRating", "ratingDistribution", "aggregatedData"]
        ++ (match s.productPage with | some _ => ["productPage"] | none => []) := by
  cases h : s.productPage <;> simp [ReviewsV2.summaryJson, jsonKeys, h]

/-- C7 (amended): a successful GET /api/reviews with both parameters
present returns, in the first revision, a data object with the fields
totalReviews, averageRating, ratingDistribution and recentReviews, with
productPage optional; in the second revision the data object carries
aggregatedData in place of recentReviews (recentReviews is absent),
alongside totalReviews, averageRating and ratingDistribution, with
productPage optional. -/
theorem c7_summary_fields (r p : String) (searchResult : Option ReviewsV1.ProductInfo)
    (rTotal rAvg rSel rH1 rH2 rH3 rH4 : ℚ)
    (shuffle : List ReviewsV1.Review → List ReviewsV1.Review) (idGen : ℕ → String)
    (lg : ℕ → ℚ) (currentDate : String)
    (amazon : Option ReviewsV2.AmazonData) (reddit : Option ReviewsV2.RedditData)
    (website : Option ReviewsV2.WebsiteData)
    (hr : r ≠ "") (hp : p ≠ "") :
    ((ReviewsV1.GET (some r) (some p) searchResult rTotal rAvg rSel rH1 rH2 rH3 rH4
        shuffle idGen).status = 200
      ∧ (ReviewsV1.GET (some r) (some p) searchResult rTotal rAvg rSel rH1 rH2 rH3 rH4
        shuffle idGen).success = true
      ∧ (ReviewsV1.GET (some r) (some p) searchResult rTotal rAvg rSel rH1 rH2 rH3 rH4
        shuffle idGen).data
          = some (ReviewsV1.summaryJson (ReviewsV1.fetchReviews r p searchResult
            rTotal rAvg rSel rH1 rH2 rH3 rH4 shuffle idGen))
      ∧ "totalReviews" ∈ jsonKeys (ReviewsV1.summaryJson (ReviewsV1.fetchReviews r p
          searchResult rTotal rAvg rSel rH1 rH2 rH3 rH4 shuffle idGen))
      ∧ "averageRating" ∈ jsonKeys (ReviewsV1.summaryJson (ReviewsV1.fetchReviews r p
          searchResult rTotal rAvg rSel rH1 rH2 rH3 rH4 shuffle idGen))
      ∧ "ratingDistribution" ∈ jsonKeys (ReviewsV1.summaryJson (ReviewsV1.fetchReviews r p
          searchResult rTotal rAvg rSel rH1 rH2 rH3 rH4 shuffle idGen))
      ∧ "recentReviews" ∈ jsonKeys (ReviewsV1.summaryJson (ReviewsV1.fetchReviews r p
          searchResult rTotal rAvg rSel rH1 rH2 rH3 rH4 shuffle idGen))
      ∧ ("productPage" ∈ jsonKeys (ReviewsV1.summaryJson (ReviewsV1.fetchReviews r p
          searchResult rTotal rAvg rSel rH1 rH2 rH3 rH4 shuffle idGen))
        ↔ (ReviewsV1.fetchReviews r p searchResult rTotal rAvg rSel rH1 rH2 rH3 rH4
          shuffle idGen).productPage.isSome))
    ∧ ((ReviewsV2.GET (some r) (some p) lg currentDate amazon reddit website).status = 200
      ∧ (ReviewsV2.GET (some r) (some p) lg currentDate amazon reddit website).success = true
      ∧ (ReviewsV2.GET (some r) (some p) lg currentDate amazon reddit website).data
          = some (ReviewsV2.summaryJson (ReviewsV2.fetchAggregatedData lg currentDate r p
            amazon reddit website))
      ∧ "totalReviews" ∈ jsonKeys (ReviewsV2.summaryJson (ReviewsV2.fetchAggregatedData
          lg currentDate r p amazon reddit website))
      ∧ "averageRating" ∈ jsonKeys (ReviewsV2.summaryJson (ReviewsV2.fetchAggregatedData
          lg currentDate r p amazon reddit website))
      ∧ "ratingDistribution" ∈ jsonKeys (ReviewsV2.summaryJson (ReviewsV2.fetchAggregatedData
          lg currentDate r p amazon reddit website))
      ∧ "aggregatedData" ∈ jsonKeys (ReviewsV2.summaryJson (ReviewsV2.fetchAggregatedData
          lg currentDate r p amazon reddit website))
      ∧ "recentReviews" ∉ jsonKeys (ReviewsV2.summaryJson (ReviewsV2.fetchAggregatedData
          lg currentDate r p amazon reddit website))
      ∧ ("productPage" ∈ jsonKeys (ReviewsV2.summaryJson (ReviewsV2.fetchAggregatedData
          lg currentDate r p amazon reddit website))
        ↔ (ReviewsV2.fetchAggregatedData lg currentDate r p amazon reddit
          website).productPage.isSome)) := by
  constructor
  · refine ⟨?_, ?_, ?_, ?_, ?_, ?_, ?_, ?_⟩
    · simp [ReviewsV1.GET, hr, hp]
    · simp [ReviewsV1.GET, hr, hp]
    · simp [ReviewsV1.GET, hr, hp]
    · rw [v1_summary_keys]; simp
    · rw [v1_summary_keys]; simp
    · rw [v1_summary_keys]; simp
    · rw [v1_summary_keys]; simp
    · rw [v1_summary_keys]
      cases h : (ReviewsV1.fetchReviews r p searchResult rTotal rAvg rSel rH1 rH2 rH3 rH4
          shuffle idGen).productPage <;> simp [h]
  · refine ⟨?_, ?_, ?_, ?_, ?_, ?_, ?_, ?_, ?_⟩
    · simp [ReviewsV2.GET, hr, hp]
    · simp [ReviewsV2.GET, hr, hp]
    · simp [ReviewsV2.GET, hr, hp]
    · rw [v2_summary_keys]; simp
    · rw [v2_summary_keys]; simp
    · rw [v2_summary_keys]; simp
    · rw [v2_summary_keys]; simp
    · rw [v2_summary_keys]
      cases h : (ReviewsV2.fetchAggregatedData lg currentDate r p amazon reddit
          website).productPage <;> simp [h]
    · rw [v2_summary_keys]
      cases h : (ReviewsV2.fetchAggregatedData lg currentDate r p amazon reddit
          website).productPage <;> simp [h]

/-- C7 counterexample: a successful request against the second revision
of the route returns a data object whose keys do not include
recentReviews (aggregatedData takes its place). -/
theorem c7_counterexample :
    (ReviewsV2.GET (some "Roaster") (some "Product") (fun _ => 0) "2024-01-01"
      none none none).success = true
    ∧ ((ReviewsV2.GET (some "Roaster") (some "Product") (fun _ => 0) "2024-01-01"
      none none none).data.map jsonKeys)
        = some ["totalReviews", "averageRating", "ratingDistribution", "aggregatedData"] :=
  ⟨rfl, rfl⟩

/-- C7 witness: the amended statement evaluated at concrete parameters
(both revisions, all scraping sources failing). -/
theorem c7_witness :
    (ReviewsV1.GET (some "R") (some "P") none (1/2) (1/2) (1/2) (1/2) (1/2) (1/2) (1/2)
      id (fun _ => "x")).status = 200
    ∧ "recentReviews" ∈ jsonKeys (ReviewsV1.summaryJson (ReviewsV1.fetchReviews "R" "P"
        none (1/2) (1/2) (1/2) (1/2) (1/2) (1/2) (1/2) id (fun _ => "x")))
    ∧ (ReviewsV2.GET (some "R") (some "P") (fun _ => 0) "d" none none none).status = 200
    ∧ "recentReviews" ∉ jsonKeys (ReviewsV2.summaryJson (ReviewsV2.fetchAggregatedData
        (fun _ => 0) "d" "R" "P" none none none)) := by
  have h := c7_summary_fields "R" "P" none (1/2) (1/2) (1/2) (1/2) (1/2) (1/2) (1/2)
    id (fun _ => "x") (fun _ => 0) "d" none none none (by decide) (by decide)
  exact ⟨h.1.1, h.1.2.2.2.2.2.2.1, h.2.1, h.2.2.2.2.2.2.2.2.1⟩
